import Mathlib

/-!
Shallow embedding of the NASDAQBot core (breakout calculator, risk ledger,
order lifecycle manager) and proofs about it.

Python floats are modelled as rationals, dates as natural-number day indices
and timestamps as integers (day indices), so that all definitions are
executable and the claims, which are exact algebraic statements, can be
settled by computation and algebra.
-/

set_option autoImplicit false

namespace NASDAQBot

/-- Strategy configuration record, from modules/opening_range_breakout.py,
class StrategyConfig. The field risk_reward models the source field
named risk_reward_ratio. -/
structure StrategyConfig where
  breakout_offset_points : ℚ
  stop_loss_points : ℚ
  risk_reward : ℚ
  min_range_size : ℚ
  max_range_size : ℚ
  use_dynamic_stops : Bool
  dynamic_stop_multiplier : ℚ
deriving Repr, DecidableEq

/-- The default values of StrategyConfig in the source
(offset 15.0, stop 25.0, R:R 2.0, min 5.0, max 100.0, dynamic off, mult 1.5). -/
def defaultStrategyConfig : StrategyConfig :=
  ⟨15, 25, 2, 5, 100, false, 3 / 2⟩

/-- Breakout levels record, from modules/opening_range_breakout.py,
class BreakoutLevels. -/
structure BreakoutLevels where
  opening_high : ℚ
  opening_low : ℚ
  range_size : ℚ
  long_entry : ℚ
  short_entry : ℚ
  long_stop_loss : ℚ
  short_stop_loss : ℚ
  long_take_profit : ℚ
  short_take_profit : ℚ
  position_size : ℤ
deriving Repr, DecidableEq

/-- OpeningRangeBreakout._is_valid_range: min_range_size < range_size <= max_range_size. -/
def is_valid_range (cfg : StrategyConfig) (range_size : ℚ) : Bool :=
  decide (cfg.min_range_size < range_size) && decide (range_size ≤ cfg.max_range_size)

/-- OpeningRangeBreakout._calculate_stop_distance: dynamic stops are used only
when the flag is set and a range size is supplied; the dynamic value is
clamped into the fixed interval [15, 50]. -/
def calculate_stop_distance (cfg : StrategyConfig) (range_size : Option ℚ) : ℚ :=
  match cfg.use_dynamic_stops, range_size with
  | true, some r => max (min (r * cfg.dynamic_stop_multiplier) 50) 15
  | _, _ => cfg.stop_loss_points

/-- The BreakoutLevels built by OpeningRangeBreakout.calculate_breakout_levels
(source lines 76-101) once the range has been validated. position_size keeps
its dataclass default 0. -/
def mk_breakout_levels (cfg : StrategyConfig) (opening_high opening_low : ℚ) : BreakoutLevels :=
  let range_size := opening_high - opening_low
  let long_entry := opening_high + cfg.breakout_offset_points
  let short_entry := opening_low - cfg.breakout_offset_points
  let stop_distance := calculate_stop_distance cfg (some range_size)
  let long_stop_loss := long_entry - stop_distance
  let short_stop_loss := short_entry + stop_distance
  let take_profit_distance := stop_distance * cfg.risk_reward
  let long_take_profit := long_entry + take_profit_distance
  let short_take_profit := short_entry - take_profit_distance
  ⟨opening_high, opening_low, range_size, long_entry, short_entry,
    long_stop_loss, short_stop_loss, long_take_profit, short_take_profit, 0⟩

/-- OpeningRangeBreakout.calculate_breakout_levels: validates the range
(raising ValueError, the InvalidRangeError of the spec, when invalid) and
otherwise returns the computed levels. -/
def calculate_breakout_levels (cfg : StrategyConfig) (opening_high opening_low : ℚ) :
    Except String BreakoutLevels :=
  let range_size := opening_high - opening_low
  if is_valid_range cfg range_size then
    Except.ok (mk_breakout_levels cfg opening_high opening_low)
  else
    Except.error "Invalid range size"

theorem is_valid_range_iff (cfg : StrategyConfig) (r : ℚ) :
    is_valid_range cfg r = true ↔ cfg.min_range_size < r ∧ r ≤ cfg.max_range_size := by
  simp [is_valid_range]

/-- C2: calculate_breakout_levels fails exactly when the range size lies
outside the half-open interval (min_range_size, max_range_size]: in
particular it fails at range == min_range_size, fails for every
range > max_range_size, and succeeds at range == max_range_size. -/
theorem calculate_breakout_levels_range_validation (cfg : StrategyConfig)
    (hlt : cfg.min_range_size < cfg.max_range_size) (opening_high opening_low : ℚ) :
    ((∃ e, calculate_breakout_levels cfg opening_high opening_low = Except.error e) ↔
      ¬(cfg.min_range_size < opening_high - opening_low ∧
        opening_high - opening_low ≤ cfg.max_range_size)) ∧
    (opening_high - opening_low = cfg.min_range_size →
      ∃ e, calculate_breakout_levels cfg opening_high opening_low = Except.error e) ∧
    (cfg.max_range_size < opening_high - opening_low →
      ∃ e, calculate_breakout_levels cfg opening_high opening_low = Except.error e) ∧
    (opening_high - opening_low = cfg.max_range_size →
      ∃ lv, calculate_breakout_levels cfg opening_high opening_low = Except.ok lv) := by
  have hmain : (∃ e, calculate_breakout_levels cfg opening_high opening_low = Except.error e) ↔
      ¬(cfg.min_range_size < opening_high - opening_low ∧
        opening_high - opening_low ≤ cfg.max_range_size) := by
    by_cases hv : is_valid_range cfg (opening_high - opening_low) = true
    · rw [is_valid_range_iff] at hv
      simp [calculate_breakout_levels, (is_valid_range_iff cfg _).mpr hv, hv]
    · have hv' : is_valid_range cfg (opening_high - opening_low) = false := by
        simpa using hv
      rw [is_valid_range_iff] at hv
      exact ⟨fun _ => hv,
        fun _ => ⟨"Invalid range size", by simp [calculate_breakout_levels, hv']⟩⟩
  refine ⟨hmain, ?_, ?_, ?_⟩
  · intro hmin
    exact hmain.mpr (by rw [hmin]; intro h; exact absurd h.1 (lt_irrefl _))
  · intro hmax
    exact hmain.mpr (by intro h; exact absurd (lt_of_lt_of_le hmax h.2) (lt_irrefl _))
  · intro hmax
    have hv : is_valid_range cfg (opening_high - opening_low) = true :=
      (is_valid_range_iff cfg _).mpr ⟨by rw [hmax]; exact hlt, le_of_eq hmax⟩
    exact ⟨mk_breakout_levels cfg opening_high opening_low,
      by simp [calculate_breakout_levels, hv]⟩

/-- C2 witness: with the default configuration (min 5, max 100), range 5 is
rejected, range 100.01 is rejected, and range 100 is accepted. -/
theorem calculate_breakout_levels_range_validation_witness :
    (∃ e, calculate_breakout_levels defaultStrategyConfig 105 100 = Except.error e) ∧
    (∃ e, calculate_breakout_levels defaultStrategyConfig (10001 / 100) 0 = Except.error e) ∧
    (∃ lv, calculate_breakout_levels defaultStrategyConfig 100 0 = Except.ok lv) := by
  refine ⟨?_, ?_, ?_⟩
  · exact (calculate_breakout_levels_range_validation defaultStrategyConfig
      (by norm_num [defaultStrategyConfig]) 105 100).2.1 (by norm_num [defaultStrategyConfig])
  · exact (calculate_breakout_levels_range_validation defaultStrategyConfig
      (by norm_num [defaultStrategyConfig]) (10001 / 100) 0).2.2.1
      (by norm_num [defaultStrategyConfig])
  · exact (calculate_breakout_levels_range_validation defaultStrategyConfig
      (by norm_num [defaultStrategyConfig]) 100 0).2.2.2
      (by norm_num [defaultStrategyConfig])

/-- C6: for a valid range the returned levels satisfy
long_entry - short_entry = 2 * offset + range, the exact risk:reward relation
long_take_profit - long_entry = risk_reward * (long_entry - long_stop_loss),
and the short side mirrors the long side with signs flipped. -/
theorem breakout_levels_algebra (cfg : StrategyConfig) (opening_high opening_low : ℚ)
    (hv : cfg.min_range_size < opening_high - opening_low ∧
      opening_high - opening_low ≤ cfg.max_range_size) :
    ∃ lv, calculate_breakout_levels cfg opening_high opening_low = Except.ok lv ∧
      lv.long_entry - lv.short_entry =
        2 * cfg.breakout_offset_points + (opening_high - opening_low) ∧
      lv.long_take_profit - lv.long_entry =
        cfg.risk_reward * (lv.long_entry - lv.long_stop_loss) ∧
      lv.long_entry = opening_high + cfg.breakout_offset_points ∧
      lv.short_entry = opening_low - cfg.breakout_offset_points ∧
      lv.short_stop_loss = lv.short_entry + (lv.long_entry - lv.long_stop_loss) ∧
      lv.short_take_profit = lv.short_entry - (lv.long_take_profit - lv.long_entry) := by
  have hb : is_valid_range cfg (opening_high - opening_low) = true :=
    (is_valid_range_iff cfg _).mpr hv
  refine ⟨mk_breakout_levels cfg opening_high opening_low, by
    simp [calculate_breakout_levels, hb], ?_, ?_, ?_, ?_, ?_, ?_⟩ <;>
    simp only [mk_breakout_levels] <;> ring

/-- C6 witness: the end-to-end example from the spec, range [14980, 15035]
with the default configuration. -/
theorem breakout_levels_algebra_witness :
    ∃ lv, calculate_breakout_levels defaultStrategyConfig 15035 14980 = Except.ok lv ∧
      lv.long_entry - lv.short_entry =
        2 * defaultStrategyConfig.breakout_offset_points + ((15035 : ℚ) - 14980) ∧
      lv.long_take_profit - lv.long_entry =
        defaultStrategyConfig.risk_reward * (lv.long_entry - lv.long_stop_loss) ∧
      lv.long_entry = (15035 : ℚ) + defaultStrategyConfig.breakout_offset_points ∧
      lv.short_entry = (14980 : ℚ) - defaultStrategyConfig.breakout_offset_points ∧
      lv.short_stop_loss = lv.short_entry + (lv.long_entry - lv.long_stop_loss) ∧
      lv.short_take_profit = lv.short_entry - (lv.long_take_profit - lv.long_entry) :=
  breakout_levels_algebra defaultStrategyConfig 15035 14980
    (by norm_num [defaultStrategyConfig])

/-- C7: with dynamic stops enabled and a range supplied the stop distance is
clamp(range * multiplier, 15, 50), with the constants 15 and 50 fixed; with
dynamic stops disabled it is the configured stop_loss_points. -/
theorem stop_distance_spec (cfg : StrategyConfig) (r : ℚ) :
    (cfg.use_dynamic_stops = true →
      calculate_stop_distance cfg (some r) =
        max (min (r * cfg.dynamic_stop_multiplier) 50) 15) ∧
    (cfg.use_dynamic_stops = false →
      ∀ o : Option ℚ, calculate_stop_distance cfg o = cfg.stop_loss_points) := by
  constructor
  · intro h
    simp [calculate_stop_distance, h]
  · intro h o
    cases o <;> simp [calculate_stop_distance, h]

/-- C7 witness: multiplier 1.5 with dynamic stops on clamps range 60 (raw 90)
to 50 and range 5 (raw 7.5) to 15; with dynamic stops off the distance is the
configured 25. -/
theorem stop_distance_spec_witness :
    calculate_stop_distance ⟨15, 25, 2, 5, 100, true, 3 / 2⟩ (some 60) = 50 ∧
    calculate_stop_distance ⟨15, 25, 2, 5, 100, true, 3 / 2⟩ (some 5) = 15 ∧
    calculate_stop_distance defaultStrategyConfig (some 60) = 25 := by
  refine ⟨?_, ?_, ?_⟩
  · rw [(stop_distance_spec ⟨15, 25, 2, 5, 100, true, 3 / 2⟩ 60).1 rfl]
    norm_num
  · rw [(stop_distance_spec ⟨15, 25, 2, 5, 100, true, 3 / 2⟩ 5).1 rfl]
    norm_num
  · exact (stop_distance_spec defaultStrategyConfig 60).2 rfl (some 60)

/-- Risk manager configuration, the constructor parameters of
RiskManager in modules/risk_manager.py. -/
structure RiskConfig where
  max_daily_loss_percent : ℚ
  max_trades_per_day : ℤ
  default_risk_percent : ℚ
  point_value : ℚ
deriving Repr, DecidableEq

/-- The default RiskManager constructor arguments
(loss 2%, 2 trades per day, risk 0.5%, point value 1.0). -/
def defaultRiskConfig : RiskConfig :=
  ⟨1 / 50, 2, 1 / 200, 1⟩

/-- Truncation toward zero, the semantics of the Python built-in int() on
a float, used at source line 95 of risk_manager.py. -/
def pytrunc (q : ℚ) : ℤ :=
  if q < 0 then ⌈q⌉ else ⌊q⌋

/-- RiskManager.calculate_position_size. Division by zero is a Python
runtime error, not a total operation, so the divisions by account_equity at
source lines 101 and 105 are modelled as an explicit error when
account_equity = 0 (the ZeroDivisionError is caught at line 115 and re-raised
as RiskLimitExceeded, like the explicit ValueError at line 91). -/
def calculate_position_size (cfg : RiskConfig) (account_equity entry_price stop_price : ℚ)
    (risk_percent : Option ℚ) : Except String ℤ :=
  let rp := risk_percent.getD cfg.default_risk_percent
  let risk_budget := account_equity * rp
  let price_risk := |entry_price - stop_price|
  let monetary_risk_per_unit := price_risk * cfg.point_value
  if monetary_risk_per_unit ≤ 0 then
    Except.error "Position size calculation failed: Invalid price risk"
  else
    let raw_position_size := risk_budget / monetary_risk_per_unit
    let position_size := pytrunc raw_position_size
    let position_size := if position_size < 1 then 1 else position_size
    if account_equity = 0 then
      Except.error "Position size calculation failed: float division by zero"
    else
      Except.ok position_size

/-- C1: with a positive account equity, distinct entry and stop prices,
the default risk percent and a positive point value, the returned size is
Except.ok of max(1, floor(equity * riskPercent / (priceRisk * pointValue))),
and that value is at least 1. -/
theorem calculate_position_size_formula (cfg : RiskConfig)
    (account_equity entry_price stop_price : ℚ)
    (heq : 0 < account_equity) (hrp : 0 ≤ cfg.default_risk_percent)
    (hpv : 0 < cfg.point_value) (hd : 0 < |entry_price - stop_price|) :
    calculate_position_size cfg account_equity entry_price stop_price none =
      Except.ok (max 1 ⌊account_equity * cfg.default_risk_percent /
        (|entry_price - stop_price| * cfg.point_value)⌋) ∧
    1 ≤ max 1 ⌊account_equity * cfg.default_risk_percent /
        (|entry_price - stop_price| * cfg.point_value)⌋ := by
  have hm : 0 < |entry_price - stop_price| * cfg.point_value := mul_pos hd hpv
  have hraw : 0 ≤ account_equity * cfg.default_risk_percent /
      (|entry_price - stop_price| * cfg.point_value) :=
    div_nonneg (mul_nonneg heq.le hrp) hm.le
  have htr : pytrunc (account_equity * cfg.default_risk_percent /
      (|entry_price - stop_price| * cfg.point_value)) =
      ⌊account_equity * cfg.default_risk_percent /
        (|entry_price - stop_price| * cfg.point_value)⌋ := by
    rw [pytrunc, if_neg (not_lt.mpr hraw)]
  constructor
  · rw [calculate_position_size]
    simp only [Option.getD_none, if_neg (not_le.mpr hm), if_neg heq.ne', htr]
    congr 1
    rcases lt_or_le ⌊account_equity * cfg.default_risk_percent /
        (|entry_price - stop_price| * cfg.point_value)⌋ 1 with h | h
    · rw [if_pos h, max_eq_left h.le]
    · rw [if_neg (not_lt.mpr h), max_eq_right h]
  · exact le_max_left _ _

/-- C1 witness: equity 100000, entry 100, stop 99 with the default
configuration gives max(1, floor(500)) = 500, and at least 1. -/
theorem calculate_position_size_formula_witness :
    calculate_position_size defaultRiskConfig 100000 100 99 none =
      Except.ok (max 1 ⌊(100000 : ℚ) * defaultRiskConfig.default_risk_percent /
        (|(100 : ℚ) - 99| * defaultRiskConfig.point_value)⌋) ∧
    1 ≤ max 1 ⌊(100000 : ℚ) * defaultRiskConfig.default_risk_percent /
        (|(100 : ℚ) - 99| * defaultRiskConfig.point_value)⌋ :=
  calculate_position_size_formula defaultRiskConfig 100000 100 99
    (by norm_num) (by norm_num [defaultRiskConfig])
    (by norm_num [defaultRiskConfig]) (by norm_num)

/-- C3 counterexample: with the default configuration, a strictly negative
equity of -100000 and distinct prices 100 and 99, calculate_position_size
returns Except.ok 1 instead of raising, refuting the claim that every
equity <= 0 raises RiskLimitExceeded. -/
theorem calculate_position_size_negative_equity_returns_one :
    calculate_position_size defaultRiskConfig (-100000) 100 99 none = Except.ok 1 := by
  norm_num [calculate_position_size, defaultRiskConfig, pytrunc, Option.getD_none]

/-- C3 amended: calculate_position_size raises RiskLimitExceeded when
entry_price = stop_price and when account_equity = 0 (the latter via the
ZeroDivisionError in the risk-percent logging computation), but for strictly
negative equity with distinct prices it returns the minimum size 1 without
raising. -/
theorem calculate_position_size_error_cases (cfg : RiskConfig)
    (account_equity entry_price stop_price : ℚ)
    (hrp : 0 ≤ cfg.default_risk_percent) (hpv : 0 < cfg.point_value) :
    (entry_price = stop_price →
      ∃ e, calculate_position_size cfg account_equity entry_price stop_price none =
        Except.error e) ∧
    (account_equity = 0 →
      ∃ e, calculate_position_size cfg account_equity entry_price stop_price none =
        Except.error e) ∧
    (account_equity < 0 → 0 < |entry_price - stop_price| →
      calculate_position_size cfg account_equity entry_price stop_price none =
        Except.ok 1) := by
  refine ⟨?_, ?_, ?_⟩
  · intro h
    refine ⟨"Position size calculation failed: Invalid price risk", ?_⟩
    rw [calculate_position_size]
    simp [h]
  · intro h
    by_cases hm : |entry_price - stop_price| * cfg.point_value ≤ 0
    · exact ⟨"Position size calculation failed: Invalid price risk",
        by rw [calculate_position_size]; simp only [if_pos hm]⟩
    · exact ⟨"Position size calculation failed: float division by zero",
        by rw [calculate_position_size]; simp only [if_neg hm, if_pos h]⟩
  · intro hneg hd
    have hm : 0 < |entry_price - stop_price| * cfg.point_value := mul_pos hd hpv
    have hraw : account_equity * cfg.default_risk_percent /
        (|entry_price - stop_price| * cfg.point_value) ≤ 0 :=
      div_nonpos_of_nonpos_of_nonneg (mul_nonpos_of_nonpos_of_nonneg hneg.le hrp) hm.le
    have htr : pytrunc (account_equity * cfg.default_risk_percent /
        (|entry_price - stop_price| * cfg.point_value)) < 1 := by
      rw [pytrunc]
      split
      · have hc : (⌈account_equity * cfg.default_risk_percent /
            (|entry_price - stop_price| * cfg.point_value)⌉ : ℤ) ≤ 0 :=
          Int.ceil_le.mpr (by exact_mod_cast hraw)
        omega
      · have hf : (⌊account_equity * cfg.default_risk_percent /
            (|entry_price - stop_price| * cfg.point_value)⌋ : ℤ) ≤ 0 :=
          Int.floor_nonpos hraw
        omega
    rw [calculate_position_size]
    simp only [Option.getD_none, if_neg (not_le.mpr hm), if_pos htr, if_neg hneg.ne]

/-- C3 amended witness: equity 0 raises, equal prices raise, and
equity -5 with distinct prices returns 1. -/
theorem calculate_position_size_error_cases_witness :
    (∃ e, calculate_position_size defaultRiskConfig 0 100 99 none = Except.error e) ∧
    (∃ e, calculate_position_size defaultRiskConfig 100000 100 100 none = Except.error e) ∧
    calculate_position_size defaultRiskConfig (-5) 100 99 none = Except.ok 1 := by
  refine ⟨?_, ?_, ?_⟩
  · exact (calculate_position_size_error_cases defaultRiskConfig 0 100 99
      (by norm_num [defaultRiskConfig]) (by norm_num [defaultRiskConfig])).2.1 rfl
  · exact (calculate_position_size_error_cases defaultRiskConfig 100000 100 100
      (by norm_num [defaultRiskConfig]) (by norm_num [defaultRiskConfig])).1 rfl
  · exact (calculate_position_size_error_cases defaultRiskConfig (-5) 100 99
      (by norm_num [defaultRiskConfig]) (by norm_num [defaultRiskConfig])).2.2
      (by norm_num) (by norm_num)

/-- Trade result record, from modules/risk_manager.py, class TradeResult.
Timestamps are day indices. -/
structure TradeResult where
  timestamp : ℤ
  pnl : ℚ
  symbol : String
  quantity : ℤ
  entry_price : ℚ
  exit_price : ℚ
deriving Repr, DecidableEq

/-- The in-memory daily tracking fields of RiskManager
(current_date, daily_pnl, trades_today, trade_history). -/
structure RiskState where
  current_date : Option ℕ
  daily_pnl : ℚ
  trades_today : ℤ
  trade_history : List TradeResult
deriving Repr, DecidableEq

/-- The persisted state blob written by RiskManager._save_daily_data. -/
structure PersistedData where
  current_date : Option ℕ
  daily_pnl : ℚ
  trades_today : ℤ
  trade_history : List TradeResult
deriving Repr, DecidableEq

/-- The risk manager together with its persistence file: mem is the
in-memory state, file the data file (none when missing). -/
structure RMWorld where
  mem : RiskState
  file : Option PersistedData
deriving Repr, DecidableEq

/-- The zeroed daily tracking set up in RiskManager.__init__ before
_load_daily_data runs. -/
def initialRiskState : RiskState :=
  ⟨none, 0, 0, []⟩

/-- The blob _save_daily_data writes for a given in-memory state. -/
def persist_of (st : RiskState) : PersistedData :=
  ⟨st.current_date, st.daily_pnl, st.trades_today, st.trade_history⟩

/-- RiskManager._save_daily_data: writes the current in-memory state to the
file; a write failure is caught and logged, leaving the file unchanged. -/
def save_daily_data (w : RMWorld) (write_fails : Bool) : RMWorld :=
  if write_fails then w else ⟨w.mem, some (persist_of w.mem)⟩

/-- RiskManager._load_daily_data: keeps the persisted counters only when the
persisted date equals today; otherwise (file missing, no date, or a stale
date) the zeroed in-memory state is left as is. -/
def load_daily_data (st : RiskState) (persisted : Option PersistedData) (today : ℕ) : RiskState :=
  match persisted with
  | none => st
  | some d =>
    match d.current_date with
    | none => st
    | some saved_date =>
      if saved_date = today then
        ⟨some saved_date, d.daily_pnl, d.trades_today, d.trade_history⟩
      else st

/-- RiskManager.__init__: zeroed daily tracking, then _load_daily_data. -/
def mkRiskManager (persisted : Option PersistedData) (today : ℕ) : RiskState :=
  load_daily_data initialRiskState persisted today

/-- RiskManager.reset_daily_limits: sets the date to today, zeroes the daily
counters, prunes history older than 30 days and saves. -/
def reset_daily_limits (w : RMWorld) (today : ℕ) (now : ℤ) (write_fails : Bool) : RMWorld :=
  let st : RiskState :=
    ⟨some today, 0, 0, w.mem.trade_history.filter (fun t => decide (now - 30 < t.timestamp))⟩
  save_daily_data ⟨st, w.file⟩ write_fails

/-- RiskManager._ensure_current_date: rolls the daily counters over when the
in-memory date differs from today. -/
def ensure_current_date (w : RMWorld) (today : ℕ) (now : ℤ) (write_fails : Bool) : RMWorld :=
  if w.mem.current_date = some today then w
  else reset_daily_limits w today now write_fails

/-- RiskManager.check_daily_loss: only losses count
(current_loss = abs(min(0, daily_pnl))), an optional potential loss is added
in absolute value, and the comparison against
account_equity * max_daily_loss_percent is boundary inclusive. Returns the
flag and the (possibly rolled-over) world. -/
def check_daily_loss (cfg : RiskConfig) (w : RMWorld) (today : ℕ) (now : ℤ)
    (write_fails : Bool) (account_equity : ℚ) (potential_loss : Option ℚ) : Bool × RMWorld :=
  let w1 := ensure_current_date w today now write_fails
  let max_daily_loss := account_equity * cfg.max_daily_loss_percent
  let current_loss := |min 0 w1.mem.daily_pnl|
  let total_potential_loss :=
    match potential_loss with
    | none => current_loss
    | some p => current_loss + |p|
  (decide (total_potential_loss ≤ max_daily_loss), w1)

/-- RiskManager.check_trade_count: trades_today < max_trades_per_day,
strict at the cap. -/
def check_trade_count (cfg : RiskConfig) (w : RMWorld) (today : ℕ) (now : ℤ)
    (write_fails : Bool) : Bool × RMWorld :=
  let w1 := ensure_current_date w today now write_fails
  (decide (w1.mem.trades_today < cfg.max_trades_per_day), w1)

/-- RiskManager.can_trade: the trade-count check runs first; the daily-loss
check runs only if it passes. -/
def can_trade (cfg : RiskConfig) (w : RMWorld) (today : ℕ) (now : ℤ) (write_fails : Bool)
    (account_equity : ℚ) (potential_loss : Option ℚ) : Bool × RMWorld :=
  let r1 := check_trade_count cfg w today now write_fails
  if r1.1 = false then (false, r1.2)
  else
    let r2 := check_daily_loss cfg r1.2 today now write_fails account_equity potential_loss
    if r2.1 = false then (false, r2.2) else (true, r2.2)

/-- RiskManager.record_trade_result: ensures the date is current, applies the
in-memory updates (pnl added, count incremented, history appended), then
saves; a failing save is swallowed by _save_daily_data. -/
def record_trade_result (w : RMWorld) (today : ℕ) (now : ℤ) (write_fails : Bool)
    (pnl : ℚ) (symbol : String) (quantity : ℤ) (entry_price exit_price : ℚ) : RMWorld :=
  let w1 := ensure_current_date w today now write_fails
  let st : RiskState :=
    ⟨w1.mem.current_date, w1.mem.daily_pnl + pnl, w1.mem.trades_today + 1,
      w1.mem.trade_history ++ [⟨now, pnl, symbol, quantity, entry_price, exit_price⟩]⟩
  save_daily_data ⟨st, w1.file⟩ write_fails

theorem save_daily_data_mem (w : RMWorld) (write_fails : Bool) :
    (save_daily_data w write_fails).mem = w.mem := by
  rw [save_daily_data]
  split <;> rfl

/-- C5: when the in-memory date is current, can_trade returns true exactly
when the trade count is strictly below the cap and the loss term
abs(min(0, daily_pnl)) plus the absolute optional potential loss is at most
account_equity * max_daily_loss_percent, boundary inclusive. -/
theorem can_trade_iff (cfg : RiskConfig) (w : RMWorld) (today : ℕ) (now : ℤ)
    (write_fails : Bool) (account_equity : ℚ) (potential_loss : Option ℚ)
    (h : w.mem.current_date = some today) :
    (can_trade cfg w today now write_fails account_equity potential_loss).1 = true ↔
      (w.mem.trades_today < cfg.max_trades_per_day ∧
        |min 0 w.mem.daily_pnl| + (potential_loss.map abs).getD 0 ≤
          account_equity * cfg.max_daily_loss_percent) := by
  have he : ensure_current_date w today now write_fails = w := by
    rw [ensure_current_date, if_pos h]
  rw [can_trade, check_trade_count, check_daily_loss.eq_def]
  simp only [he]
  rcases potential_loss with _ | p
  · by_cases hc : w.mem.trades_today < cfg.max_trades_per_day <;>
      by_cases hl : |min 0 w.mem.daily_pnl| ≤
        account_equity * cfg.max_daily_loss_percent <;>
      simp [hc, hl]
  · by_cases hc : w.mem.trades_today < cfg.max_trades_per_day <;>
      by_cases hl : |min 0 w.mem.daily_pnl| + |p| ≤
        account_equity * cfg.max_daily_loss_percent <;>
      simp [hc, hl]

/-- C5 witness: one trade taken (cap 2), daily P/L -100, equity 100000,
potential loss 500: 100 + 500 is within the 2000 limit, so trading is
allowed; the formula agrees. -/
theorem can_trade_iff_witness :
    (can_trade defaultRiskConfig ⟨⟨some 0, -100, 1, []⟩, none⟩ 0 0 false
      100000 (some 500)).1 = true :=
  (can_trade_iff defaultRiskConfig ⟨⟨some 0, -100, 1, []⟩, none⟩ 0 0 false
    100000 (some 500) rfl).mpr (by norm_num [defaultRiskConfig])

/-- C8: a risk manager constructed from a persisted blob carrying a prior
calendar date starts with zeroed daily counters, discarding the persisted
ones; and a limit check or record call on a stale in-memory date performs
the same zeroing rollover (date set to today, counters zeroed, recorded
values applied on top of zero). -/
theorem day_rollover_zeroes_counters (p : PersistedData) (today : ℕ) (d : ℕ)
    (hd : p.current_date = some d) (hne : d ≠ today)
    (cfg : RiskConfig) (w : RMWorld) (now : ℤ) (write_fails : Bool)
    (account_equity pnl entry_price exit_price : ℚ) (potential_loss : Option ℚ)
    (symbol : String) (quantity : ℤ)
    (hstale : w.mem.current_date ≠ some today) :
    ((mkRiskManager (some p) today).daily_pnl = 0 ∧
      (mkRiskManager (some p) today).trades_today = 0) ∧
    ((ensure_current_date w today now write_fails).mem.daily_pnl = 0 ∧
      (ensure_current_date w today now write_fails).mem.trades_today = 0 ∧
      (ensure_current_date w today now write_fails).mem.current_date = some today) ∧
    ((check_trade_count cfg w today now write_fails).2.mem.trades_today = 0 ∧
      (check_daily_loss cfg w today now write_fails account_equity
        potential_loss).2.mem.daily_pnl = 0) ∧
    ((record_trade_result w today now write_fails pnl symbol quantity
        entry_price exit_price).mem.daily_pnl = pnl ∧
      (record_trade_result w today now write_fails pnl symbol quantity
        entry_price exit_price).mem.trades_today = 1) := by
  have hmk : mkRiskManager (some p) today = initialRiskState := by
    rw [mkRiskManager, load_daily_data, hd]
    simp [hne]
  have hens : (ensure_current_date w today now write_fails).mem =
      ⟨some today, 0, 0,
        w.mem.trade_history.filter (fun t => decide (now - 30 < t.timestamp))⟩ := by
    rw [ensure_current_date, if_neg hstale, reset_daily_limits, save_daily_data_mem]
  refine ⟨⟨by rw [hmk]; rfl, by rw [hmk]; rfl⟩, ⟨?_, ?_, ?_⟩, ⟨?_, ?_⟩, ⟨?_, ?_⟩⟩
  · rw [hens]
  · rw [hens]
  · rw [hens]
  · rw [check_trade_count]
    simp only [hens]
  · rw [check_daily_loss.eq_def]
    simp only [hens]
  · rw [record_trade_result, save_daily_data_mem]
    simp only [hens]
    norm_num
  · rw [record_trade_result, save_daily_data_mem]
    simp only [hens]
    norm_num

/-- C8 witness: persisted blob for day 3 with P/L -500 and 2 trades, loaded
on day 4; and a world whose in-memory date is day 3 checked on day 4. -/
theorem day_rollover_zeroes_counters_witness :
    ((mkRiskManager (some ⟨some 3, -500, 2, []⟩) 4).daily_pnl = 0 ∧
      (mkRiskManager (some ⟨some 3, -500, 2, []⟩) 4).trades_today = 0) ∧
    ((ensure_current_date ⟨⟨some 3, -500, 2, []⟩, none⟩ 4 4 false).mem.daily_pnl = 0 ∧
      (ensure_current_date ⟨⟨some 3, -500, 2, []⟩, none⟩ 4 4 false).mem.trades_today = 0 ∧
      (ensure_current_date ⟨⟨some 3, -500, 2, []⟩, none⟩ 4 4 false).mem.current_date =
        some 4) ∧
    ((check_trade_count defaultRiskConfig ⟨⟨some 3, -500, 2, []⟩, none⟩ 4 4
        false).2.mem.trades_today = 0 ∧
      (check_daily_loss defaultRiskConfig ⟨⟨some 3, -500, 2, []⟩, none⟩ 4 4 false
        100000 none).2.mem.daily_pnl = 0) ∧
    ((record_trade_result ⟨⟨some 3, -500, 2, []⟩, none⟩ 4 4 false 250 "MNQ" 4
        15000 15060).mem.daily_pnl = 250 ∧
      (record_trade_result ⟨⟨some 3, -500, 2, []⟩, none⟩ 4 4 false 250 "MNQ" 4
        15000 15060).mem.trades_today = 1) :=
  day_rollover_zeroes_counters ⟨some 3, -500, 2, []⟩ 4 3 rfl (by norm_num)
    defaultRiskConfig ⟨⟨some 3, -500, 2, []⟩, none⟩ 4 false 100000 250 15000 15060
    none "MNQ" 4 (by simp)

/-- C10: record_trade_result is total and always applies the in-memory
updates: on a current date, daily_pnl grows by pnl, trades_today by one and
exactly one TradeResult is appended, and when the persistence write fails
the file is left unchanged while the in-memory updates still take effect. -/
theorem record_trade_result_updates (w : RMWorld) (today : ℕ) (now : ℤ)
    (write_fails : Bool) (pnl : ℚ) (symbol : String) (quantity : ℤ)
    (entry_price exit_price : ℚ)
    (h : w.mem.current_date = some today) :
    (record_trade_result w today now write_fails pnl symbol quantity entry_price
        exit_price).mem.daily_pnl = w.mem.daily_pnl + pnl ∧
    (record_trade_result w today now write_fails pnl symbol quantity entry_price
        exit_price).mem.trades_today = w.mem.trades_today + 1 ∧
    (record_trade_result w today now write_fails pnl symbol quantity entry_price
        exit_price).mem.trade_history = w.mem.trade_history ++
        [⟨now, pnl, symbol, quantity, entry_price, exit_price⟩] ∧
    (write_fails = true →
      (record_trade_result w today now write_fails pnl symbol quantity entry_price
        exit_price).file = w.file) := by
  have he : ensure_current_date w today now write_fails = w := by
    rw [ensure_current_date, if_pos h]
  refine ⟨?_, ?_, ?_, ?_⟩ <;>
    rw [record_trade_result]
  · rw [save_daily_data_mem, he]
  · rw [save_daily_data_mem, he]
  · rw [save_daily_data_mem, he]
  · intro hf
    rw [he, save_daily_data, if_pos hf]

/-- C10 witness: a concrete record call whose persistence write fails still
updates the in-memory counters and leaves the file unchanged. -/
theorem record_trade_result_updates_witness :
    (record_trade_result ⟨⟨some 7, -100, 1, []⟩, none⟩ 7 7 true 250 "MNQ" 4
        15000 15060).mem.daily_pnl = -100 + 250 ∧
    (record_trade_result ⟨⟨some 7, -100, 1, []⟩, none⟩ 7 7 true 250 "MNQ" 4
        15000 15060).mem.trades_today = 1 + 1 ∧
    (record_trade_result ⟨⟨some 7, -100, 1, []⟩, none⟩ 7 7 true 250 "MNQ" 4
        15000 15060).mem.trade_history = [] ++ [⟨7, 250, "MNQ", 4, 15000, 15060⟩] ∧
    (true = true →
      (record_trade_result ⟨⟨some 7, -100, 1, []⟩, none⟩ 7 7 true 250 "MNQ" 4
        15000 15060).file = none) :=
  record_trade_result_updates ⟨⟨some 7, -100, 1, []⟩, none⟩ 7 7 true 250 "MNQ" 4
    15000 15060 rfl

/-- Trade execution record, from modules/order_manager.py, class
TradeExecution. -/
structure TradeExecution where
  order_id : String
  symbol : String
  side : String
  quantity : ℤ
  entry_price : ℚ
  timestamp : ℤ
  stop_loss : ℚ
  take_profit : ℚ
deriving Repr, DecidableEq

/-- OrderManager.on_trade_exit: scans executed_trades in append order and
recording stops at the first entry whose symbol matches (the for loop with
break at source lines 384-396); when none matches nothing is recorded. -/
def on_trade_exit (executed_trades : List TradeExecution) (w : RMWorld)
    (today : ℕ) (now : ℤ) (write_fails : Bool)
    (symbol : String) (exit_price pnl : ℚ) : RMWorld :=
  match executed_trades.find? (fun t => t.symbol == symbol) with
  | none => w
  | some t =>
    record_trade_result w today now write_fails pnl symbol t.quantity
      t.entry_price exit_price

/-- C4 counterexample: with two executions for MNQ appended in order
(quantity 1 entry 10, then quantity 2 entry 20), on_trade_exit forwards the
quantity and entry price of the FIRST appended execution (1 and 10), while
the most recently appended execution has quantity 2: the claim that the most
recent execution is forwarded is false. -/
theorem on_trade_exit_uses_earliest_execution :
    (on_trade_exit
      [⟨"o1", "MNQ", "long", 1, 10, 0, 0, 0⟩, ⟨"o2", "MNQ", "long", 2, 20, 0, 0, 0⟩]
      ⟨⟨some 0, 0, 0, []⟩, none⟩ 0 0 false "MNQ" 30 5).mem.trade_history =
      [⟨0, 5, "MNQ", 1, 10, 30⟩] ∧
    (([⟨"o1", "MNQ", "long", 1, 10, 0, 0, 0⟩, ⟨"o2", "MNQ", "long", 2, 20, 0, 0, 0⟩] :
      List TradeExecution).getLast?.map TradeExecution.quantity) = some 2 ∧
    (1 : ℤ) ≠ 2 := by
  refine ⟨?_, rfl, by norm_num⟩
  norm_num [on_trade_exit, record_trade_result, ensure_current_date,
    save_daily_data, List.find?]

/-- C4 amended: on_trade_exit forwards (pnl, symbol, quantity, entryPrice,
exitPrice) to record_trade_result taking quantity and entry price from the
FIRST (earliest appended) execution recorded for the symbol, not the most
recent one. -/
theorem on_trade_exit_forwards_first_match (executed_trades : List TradeExecution)
    (w : RMWorld) (today : ℕ) (now : ℤ) (write_fails : Bool) (symbol : String)
    (exit_price pnl : ℚ) (t : TradeExecution)
    (hfind : executed_trades.find? (fun e => e.symbol == symbol) = some t)
    (hdate : w.mem.current_date = some today) :
    (on_trade_exit executed_trades w today now write_fails symbol exit_price
        pnl).mem.trade_history =
      w.mem.trade_history ++ [⟨now, pnl, symbol, t.quantity, t.entry_price, exit_price⟩] ∧
    (on_trade_exit executed_trades w today now write_fails symbol exit_price
        pnl).mem.daily_pnl = w.mem.daily_pnl + pnl ∧
    (on_trade_exit executed_trades w today now write_fails symbol exit_price
        pnl).mem.trades_today = w.mem.trades_today + 1 := by
  have he : ensure_current_date w today now write_fails = w := by
    rw [ensure_current_date, if_pos hdate]
  have hre : on_trade_exit executed_trades w today now write_fails symbol exit_price pnl =
      record_trade_result w today now write_fails pnl symbol t.quantity
        t.entry_price exit_price := by
    rw [on_trade_exit.eq_def, hfind]
  refine ⟨?_, ?_, ?_⟩ <;>
    simp [hre, record_trade_result, he, save_daily_data_mem]

/-- C4 amended witness: the two-execution scenario forwards quantity 1 and
entry price 10 from the earliest execution. -/
theorem on_trade_exit_forwards_first_match_witness :
    (on_trade_exit
      [⟨"o1", "MNQ", "long", 1, 10, 0, 0, 0⟩, ⟨"o2", "MNQ", "long", 2, 20, 0, 0, 0⟩]
      ⟨⟨some 0, 0, 0, []⟩, none⟩ 0 0 false "MNQ" 30 5).mem.trade_history =
      [] ++ [⟨0, 5, "MNQ",
        (⟨"o1", "MNQ", "long", 1, 10, 0, 0, 0⟩ : TradeExecution).quantity,
        (⟨"o1", "MNQ", "long", 1, 10, 0, 0, 0⟩ : TradeExecution).entry_price, 30⟩] ∧
    (on_trade_exit
      [⟨"o1", "MNQ", "long", 1, 10, 0, 0, 0⟩, ⟨"o2", "MNQ", "long", 2, 20, 0, 0, 0⟩]
      ⟨⟨some 0, 0, 0, []⟩, none⟩ 0 0 false "MNQ" 30 5).mem.daily_pnl = 0 + 5 ∧
    (on_trade_exit
      [⟨"o1", "MNQ", "long", 1, 10, 0, 0, 0⟩, ⟨"o2", "MNQ", "long", 2, 20, 0, 0, 0⟩]
      ⟨⟨some 0, 0, 0, []⟩, none⟩ 0 0 false "MNQ" 30 5).mem.trades_today = 0 + 1 :=
  on_trade_exit_forwards_first_match
    [⟨"o1", "MNQ", "long", 1, 10, 0, 0, 0⟩, ⟨"o2", "MNQ", "long", 2, 20, 0, 0, 0⟩]
    ⟨⟨some 0, 0, 0, []⟩, none⟩ 0 0 false "MNQ" 30 5
    ⟨"o1", "MNQ", "long", 1, 10, 0, 0, 0⟩ (by decide) rfl

/-- Order parameters record, from modules/alpaca_api.py OrderParams as
populated in OrderManager.place_breakout_orders. The field order_type models
the source field named type. -/
structure OrderParams where
  symbol : String
  qty : ℤ
  side : String
  order_type : String
  stop_price : ℚ
  take_profit : ℚ
  stop_loss : ℚ
  time_in_force : String
deriving Repr, DecidableEq

/-- Breakout order pair record, from modules/order_manager.py, class
BreakoutOrders. -/
structure BreakoutOrders where
  long_order_id : Option String
  short_order_id : Option String
  symbol : String
  long_entry : ℚ
  short_entry : ℚ
  stop_loss_points : ℚ
  take_profit_points : ℚ
  position_size : ℤ
deriving Repr, DecidableEq

/-- The long-side bracket parameters built at source lines 115-124: buy stop
at long_entry with take profit long_entry + take_profit_points and stop loss
long_entry - stop_loss_points. -/
def long_order_params (symbol : String) (qty : ℤ)
    (long_entry stop_loss_points take_profit_points : ℚ) : OrderParams :=
  ⟨symbol, qty, "buy", "stop", long_entry, long_entry + take_profit_points,
    long_entry - stop_loss_points, "day"⟩

/-- The short-side bracket parameters built at source lines 127-136: sell
stop at short_entry with take profit short_entry - take_profit_points and
stop loss short_entry + stop_loss_points. -/
def short_order_params (symbol : String) (qty : ℤ)
    (short_entry stop_loss_points take_profit_points : ℚ) : OrderParams :=
  ⟨symbol, qty, "sell", "stop", short_entry, short_entry - take_profit_points,
    short_entry + stop_loss_points, "day"⟩

/-- OrderManager.place_breakout_orders over an abstract brokerage submit
operation returning an order id or failing. The active tracking table is a
map from symbol to its pair; it is mutated only after both submissions
succeed (source line 155), so every failure path returns it unchanged, and
every failure surfaces as an OrderManagerError (here the error string). The
risk world is returned as updated by the can_trade checks. -/
def place_breakout_orders (cfg : RiskConfig)
    (active : String → Option BreakoutOrders) (w : RMWorld)
    (today : ℕ) (now : ℤ) (write_fails : Bool)
    (submit : OrderParams → Except String String)
    (symbol : String)
    (long_entry short_entry stop_loss_points take_profit_points account_equity : ℚ) :
    (String → Option BreakoutOrders) × RMWorld × Except String BreakoutOrders :=
  let ct := can_trade cfg w today now write_fails account_equity none
  if ct.1 = false then
    (active, ct.2, Except.error "Risk limits prevent new trades")
  else
    match calculate_position_size cfg account_equity long_entry
        (long_entry - stop_loss_points) none with
    | Except.error e =>
      (active, ct.2, Except.error ("Failed to place breakout orders: " ++ e))
    | Except.ok position_size =>
      if position_size ≤ 0 then
        (active, ct.2, Except.error "Invalid position size calculated")
      else
        match submit (long_order_params symbol position_size long_entry
            stop_loss_points take_profit_points) with
        | Except.error e =>
          (active, ct.2, Except.error ("Failed to place breakout orders: " ++ e))
        | Except.ok long_id =>
          match submit (short_order_params symbol position_size short_entry
              stop_loss_points take_profit_points) with
          | Except.error e =>
            (active, ct.2, Except.error ("Failed to place breakout orders: " ++ e))
          | Except.ok short_id =>
            let pair : BreakoutOrders :=
              ⟨some long_id, some short_id, symbol, long_entry, short_entry,
                stop_loss_points, take_profit_points, position_size⟩
            (fun s => if s = symbol then some pair else active s, ct.2, Except.ok pair)

/-- C9: place_breakout_orders is all-or-nothing for the tracking table: on
every error return (risk block, sizing failure, non-positive size, either
submission failing) the table is unchanged; a risk block always yields an
error; success happens exactly when the risk check passes, sizing returns a
positive size and both submissions succeed, and then the symbol maps to the
single new pair carrying both submitted order ids while every other symbol
is untouched. -/
theorem place_breakout_orders_atomic (cfg : RiskConfig)
    (active : String → Option BreakoutOrders) (w : RMWorld)
    (today : ℕ) (now : ℤ) (write_fails : Bool)
    (submit : OrderParams → Except String String) (symbol : String)
    (long_entry short_entry stop_loss_points take_profit_points account_equity : ℚ) :
    (∀ e, (place_breakout_orders cfg active w today now write_fails submit symbol
        long_entry short_entry stop_loss_points take_profit_points
        account_equity).2.2 = Except.error e →
      (place_breakout_orders cfg active w today now write_fails submit symbol
        long_entry short_entry stop_loss_points take_profit_points
        account_equity).1 = active) ∧
    ((can_trade cfg w today now write_fails account_equity none).1 = false →
      ∃ e, (place_breakout_orders cfg active w today now write_fails submit symbol
        long_entry short_entry stop_loss_points take_profit_points
        account_equity).2.2 = Except.error e) ∧
    ((∃ pair, (place_breakout_orders cfg active w today now write_fails submit symbol
        long_entry short_entry stop_loss_points take_profit_points
        account_equity).2.2 = Except.ok pair) ↔
      ((can_trade cfg w today now write_fails account_equity none).1 = true ∧
        ∃ ps long_id short_id, 0 < ps ∧
          calculate_position_size cfg account_equity long_entry
            (long_entry - stop_loss_points) none = Except.ok ps ∧
          submit (long_order_params symbol ps long_entry stop_loss_points
            take_profit_points) = Except.ok long_id ∧
          submit (short_order_params symbol ps short_entry stop_loss_points
            take_profit_points) = Except.ok short_id)) ∧
    (∀ pair, (place_breakout_orders cfg active w today now write_fails submit symbol
        long_entry short_entry stop_loss_points take_profit_points
        account_equity).2.2 = Except.ok pair →
      (place_breakout_orders cfg active w today now write_fails submit symbol
        long_entry short_entry stop_loss_points take_profit_points
        account_equity).1 symbol = some pair ∧
      (∀ s, s ≠ symbol →
        (place_breakout_orders cfg active w today now write_fails submit symbol
          long_entry short_entry stop_loss_points take_profit_points
          account_equity).1 s = active s) ∧
      ∃ long_id short_id,
        submit (long_order_params symbol pair.position_size long_entry
          stop_loss_points take_profit_points) = Except.ok long_id ∧
        submit (short_order_params symbol pair.position_size short_entry
          stop_loss_points take_profit_points) = Except.ok short_id ∧
        pair.long_order_id = some long_id ∧ pair.short_order_id = some short_id ∧
        pair.symbol = symbol ∧ 0 < pair.position_size) := by
  rw [place_breakout_orders.eq_def]
  rcases hct : (can_trade cfg w today now write_fails account_equity none).1 with _ | _
  · simp [hct]
  · simp only [hct]
    rcases hcalc : calculate_position_size cfg account_equity long_entry
        (long_entry - stop_loss_points) none with e | ps
    · simp [hcalc]
    · simp only
      by_cases hps : ps ≤ 0

      · simp only [if_pos hps]
        refine ⟨fun e _ => rfl, fun h => ⟨_, rfl⟩, ?_, ?_⟩
        · constructor
          · rintro ⟨pair, hpair⟩
            exact absurd hpair (by simp)
          · rintro ⟨-, ps', lid, sid, hps', hcalc', -⟩
            injection hcalc' with h'
            exact absurd hps' (by omega)
        · intro pair hpair
          exact absurd hpair (by simp)
      · simp only [if_neg hps]
        rcases hsl : submit (long_order_params symbol ps long_entry stop_loss_points
            take_profit_points) with e | long_id
        · refine ⟨fun e _ => rfl, fun h => ⟨_, rfl⟩, ?_, ?_⟩
          · constructor
            · rintro ⟨pair, hpair⟩
              exact absurd hpair (by simp)
            · rintro ⟨-, ps', lid, sid, hps', hcalc', hsl', -⟩
              injection hcalc' with h'
              subst h'
              rw [hsl] at hsl'
              cases hsl'
          · intro pair hpair
            exact absurd hpair (by simp)
        · rcases hss : submit (short_order_params symbol ps short_entry stop_loss_points
              take_profit_points) with e | short_id
          · refine ⟨fun e _ => rfl, fun h => ⟨_, rfl⟩, ?_, ?_⟩
            · constructor
              · rintro ⟨pair, hpair⟩
                exact absurd hpair (by simp)
              · rintro ⟨-, ps', lid, sid, hps', hcalc', hsl', hss'⟩
                injection hcalc' with h'
                subst h'
                rw [hss] at hss'
                cases hss'
            · intro pair hpair
              exact absurd hpair (by simp)
          · refine ⟨fun e he => ?_, fun h => ?_, ?_, ?_⟩
            · exact absurd he (by simp)
            · simp at h
            · constructor
              · rintro ⟨pair, hpair⟩
                exact ⟨by trivial, ps, long_id, short_id, by omega, rfl, hsl, hss⟩
              · rintro -
                exact ⟨_, rfl⟩
            · intro pair hpair
              have hpair' : pair = ⟨some long_id, some short_id, symbol, long_entry,
                  short_entry, stop_loss_points, take_profit_points, ps⟩ := by
                simpa using hpair.symm
              subst hpair'
              refine ⟨by simp, fun s hs => by simp [hs], long_id, short_id,
                hsl, hss, rfl, rfl, rfl, ?_⟩
              have hps' : (0 : ℤ) < ps := by omega
              exact hps'

/-- C9 witness: a concrete successful placement (equity 100000, default
risk configuration, both submissions succeeding with ids L1 and S1) tracks
exactly the new pair under MNQ and leaves other symbols untracked. -/
theorem place_breakout_orders_atomic_witness :
    (place_breakout_orders defaultRiskConfig (fun _ => none)
      ⟨⟨some 0, 0, 0, []⟩, none⟩ 0 0 false
      (fun p => if p.side = "buy" then Except.ok "L1" else Except.ok "S1")
      "MNQ" 15050 14965 25 50 100000).1 "MNQ" =
      some ⟨some "L1", some "S1", "MNQ", 15050, 14965, 25, 50, 20⟩ ∧
    (place_breakout_orders defaultRiskConfig (fun _ => none)
      ⟨⟨some 0, 0, 0, []⟩, none⟩ 0 0 false
      (fun p => if p.side = "buy" then Except.ok "L1" else Except.ok "S1")
      "MNQ" 15050 14965 25 50 100000).1 "QQQ" = none := by
  have h := (place_breakout_orders_atomic defaultRiskConfig (fun _ => none)
    ⟨⟨some 0, 0, 0, []⟩, none⟩ 0 0 false
    (fun p => if p.side = "buy" then Except.ok "L1" else Except.ok "S1")
    "MNQ" 15050 14965 25 50 100000).2.2.2
    ⟨some "L1", some "S1", "MNQ", 15050, 14965, 25, 50, 20⟩
    (by norm_num [place_breakout_orders, can_trade, check_trade_count,
      check_daily_loss, ensure_current_date, calculate_position_size,
      defaultRiskConfig, pytrunc, long_order_params, short_order_params]; rfl)
  refine ⟨h.1, ?_⟩
  rw [h.2.1 "QQQ" (by decide)]

end NASDAQBot
